import Mathlib

/-!
Verification development for the agent trading-cycle execution model of the
Mira repository (`src/lib/agents/execution.ts`).

Embedding conventions:
* JS `number` is modelled as `Rat` (the claims only compare magnitudes).
* A settled JS promise / a possibly-throwing computation is modelled as
  `Except String α`: `.error msg` is a thrown `Error` whose `.message` is `msg`.
* External collaborators that live outside `execution.ts` (`domain.ts`
  profile registry, `portfolio.ts` portfolio functions, `generator.ts` trade
  generator, the market/news fetchers) are abstracted as fields of an
  environment record and quantified over in the theorems.
* Observable side effects (fetcher calls, persistence calls) are returned in
  an explicit effect log, so "performs zero calls" claims are statable.
* The `setInterval` scheduler is modelled as a state machine driven by an
  abstract event trace (`tick` = a timer firing of `runCycle`, `complete` =
  the in-flight `runTradingCycle` promise settling and running the
  `finally` block).
-/

namespace Mira

/-- Market record as consumed by `execution.ts`: `id`, `volumeUsd`,
`liquidityUsd` (pricing fields owned by the market-data collaborator are
irrelevant to the execution core and omitted). -/
structure Market where
  id : String
  volumeUsd : Rat
  liquidityUsd : Rat
  deriving Repr, DecidableEq

/-- Static per-agent configuration from the `domain.ts` registry: the
`minVolume` / `minLiquidity` thresholds used by the candidate-market filter. -/
structure AgentProfile where
  minVolume : Rat
  minLiquidity : Rat
  deriving Repr, DecidableEq

/-- Trade side. -/
inductive Side where
  | yes
  | no
  deriving Repr, DecidableEq

/-- Modelled from the spec: position detail owned by `portfolio.ts`
(quantity, side, entry price); the execution core only ever counts the keys
of the `openPositions` map. -/
structure Position where
  quantity : Rat
  side : Side
  entryPriceUsd : Rat
  deriving Repr, DecidableEq

/-- Per-agent portfolio state (`portfolio.ts` / `AgentPortfolio`).
`openPositions` (a JS object keyed by market/position key) is modelled as an
association list. -/
structure AgentPortfolio where
  agentId : String
  startingCapitalUsd : Rat
  currentCapitalUsd : Rat
  realizedPnlUsd : Rat
  unrealizedPnlUsd : Rat
  maxEquityUsd : Rat
  maxDrawdownPct : Rat
  openPositions : List (String × Position)
  lastUpdated : String
  deriving Repr, DecidableEq

/-- Status field of a trade produced by `generateAgentTrades`
(`'OPEN' | 'CLOSED' | 'PENDING'`). -/
inductive TradeStatus where
  | OPEN
  | CLOSED
  | PENDING
  deriving Repr, DecidableEq

/-- A generated trade, of which `execution.ts` only inspects `status`. -/
structure Trade where
  status : TradeStatus
  deriving Repr, DecidableEq

/-- The `CycleResult` record of `execution.ts`. The optional `error?` field
is an `Option String`. -/
structure CycleResult where
  agentId : String
  success : Bool
  candidateMarkets : Nat
  newTrades : Nat
  closedTrades : Nat
  openPositions : Nat
  cycleMs : Nat
  error : Option String
  deriving Repr, DecidableEq

/-- The `CycleConfig` record of `execution.ts`. -/
structure CycleConfig where
  enabled : Bool
  intervalMs : Nat
  forceRefresh : Option Bool := none
  deriving Repr, DecidableEq

/-- Observable external calls made by the cycle runner, collected in order. -/
inductive Effect where
  | fetchAllMarketsCall
  | fetchLatestNewsCall
  | getPortfolioCall (agentId : String)
  | updateMetricsCall (agentId : String)
  | generateTradesCall (agentId : String)
  | savePortfolioCall (agentId : String) (portfolio : AgentPortfolio)
  deriving Repr, DecidableEq

/-- Environment of external collaborators used by `runAgentCycle`.
`getAgentProfile` (from `domain.ts`) is total here, reflecting that the claim
restricts agent ids to the fixed roster on which the registry is defined.
`updatePortfolioMetrics` models the in-place mutation of `portfolio.ts` as a
function from the pre-state to an `Except`-wrapped post-state (it runs inside
the `try` block, so a throwing implementation must be representable).
`elapsedMs` abstracts `Date.now() - startTime`; `nowIso` abstracts
`new Date().toISOString()`. -/
structure AgentEnv where
  getAgentProfile : String → AgentProfile
  createInitialPortfolio : String → AgentPortfolio
  updatePortfolioMetrics : AgentPortfolio → List (String × Market) → Except String AgentPortfolio
  generateAgentTrades : String → Except String (List Trade)
  elapsedMs : Nat
  nowIso : String

/-- Untyped duck-shaped fields that the portfolio-record decoder of
`runAgentCycle` probes with `??` fallback chains. -/
structure RawPortfolioFields where
  startingCapitalUsd : Option Rat
  startingCapital : Option Rat
  currentCapitalUsd : Option Rat
  currentCapital : Option Rat
  current : Option Rat
  realizedPnlUsd : Option Rat
  unrealizedPnlUsd : Option Rat
  maxEquityUsd : Option Rat
  maxDrawdownPct : Option Rat
  openPositions : Option (List (String × Position))
  lastUpdated : Option String
  deriving Repr, DecidableEq

/-- Shape of `portfolioRecordAny`: an optional nested `.portfolio` wrapper,
bare fields, and `keyCount` standing for `Object.keys(record).length`. -/
structure PortfolioRecordAny where
  portfolio : Option RawPortfolioFields
  fields : RawPortfolioFields
  keyCount : Nat
  deriving Repr, DecidableEq

/-- The no-op persistence adapter of `execution.ts`
(`getNoopPersistenceAdapter`): `getPortfolio` always resolves to `null`. -/
def noopGetPortfolio (_agentId : String) : Except String (Option PortfolioRecordAny) :=
  .ok none

/-- The no-op adapter's `savePortfolio`: resolves without effect. -/
def noopSavePortfolio (_portfolio : AgentPortfolio) : Except String Unit :=
  .ok ()

/-- Decoding of a duck-typed persisted record into an `AgentPortfolio`
(`execution.ts` lines 77-88): `pr = record.portfolio || record`, then `??`
fallback chains per field. -/
def decodePortfolioRecord (env : AgentEnv) (agentId : String)
    (record : PortfolioRecordAny) : AgentPortfolio :=
  let pr := record.portfolio.getD record.fields
  { agentId := agentId
    startingCapitalUsd := pr.startingCapitalUsd.getD (pr.startingCapital.getD 0)
    currentCapitalUsd := pr.currentCapitalUsd.getD (pr.currentCapital.getD (pr.current.getD 0))
    realizedPnlUsd := pr.realizedPnlUsd.getD 0
    unrealizedPnlUsd := pr.unrealizedPnlUsd.getD 0
    maxEquityUsd := pr.maxEquityUsd.getD 0
    maxDrawdownPct := pr.maxDrawdownPct.getD 0
    openPositions := pr.openPositions.getD []
    lastUpdated := pr.lastUpdated.getD env.nowIso }

/-- Portfolio-loading step of `runAgentCycle` (lines 73-92): initialise with
`createInitialPortfolio`, attempt `persistence.getPortfolio` (the no-op
adapter), decode a truthy non-empty record, and swallow any error from the
inner `try` by keeping the initial portfolio. -/
def loadPortfolioStep (env : AgentEnv) (agentId : String) : AgentPortfolio :=
  let initial := env.createInitialPortfolio agentId
  match noopGetPortfolio agentId with
  | .error _ => initial
  | .ok none => initial
  | .ok (some record) =>
      if record.portfolio.isSome || decide (0 < record.keyCount) then
        decodePortfolioRecord env agentId record
      else
        initial

/-- Candidate-market filter of `runAgentCycle` (lines 107-111): count
markets whose `volumeUsd` and `liquidityUsd` both meet the agent's
thresholds. -/
def candidateMarketCount (agent : AgentProfile) (markets : List Market) : Nat :=
  (markets.filter fun m =>
    let volume := decide (m.volumeUsd ≥ agent.minVolume)
    let liquidity := decide (m.liquidityUsd ≥ agent.minLiquidity)
    volume && liquidity).length

/-- The `catch` branch's result record of `runAgentCycle` (lines 130-139). -/
def failureResult (agentId : String) (cycleMs : Nat) (msg : String) : CycleResult :=
  { agentId := agentId
    success := false
    candidateMarkets := 0
    newTrades := 0
    closedTrades := 0
    openPositions := 0
    cycleMs := cycleMs
    error := some msg }

/-- Body of the `try` block of `runAgentCycle` (lines 69-126), returning the
settled outcome together with the log of external calls made so far. -/
def runAgentCycleBody (env : AgentEnv) (agentId : String) (markets : List Market)
    (marketsMap : List (String × Market)) :
    Except String CycleResult × List Effect :=
  let agent := env.getAgentProfile agentId
  let portfolio := loadPortfolioStep env agentId
  match env.updatePortfolioMetrics portfolio marketsMap with
  | .error e =>
      (.error e, [.getPortfolioCall agentId, .updateMetricsCall agentId])
  | .ok portfolio =>
      match env.generateAgentTrades agentId with
      | .error e =>
          (.error e,
           [.getPortfolioCall agentId, .updateMetricsCall agentId,
            .generateTradesCall agentId])
      | .ok trades =>
          let candidateMarkets := candidateMarketCount agent markets
          match noopSavePortfolio portfolio with
          | .error e =>
              (.error e,
               [.getPortfolioCall agentId, .updateMetricsCall agentId,
                .generateTradesCall agentId, .savePortfolioCall agentId portfolio])
          | .ok _ =>
              (.ok
                { agentId := agentId
                  success := true
                  candidateMarkets := candidateMarkets
                  newTrades := (trades.filter fun t => decide (t.status = .OPEN)).length
                  closedTrades := (trades.filter fun t => decide (t.status = .CLOSED)).length
                  openPositions := portfolio.openPositions.length
                  cycleMs := env.elapsedMs
                  error := none },
               [.getPortfolioCall agentId, .updateMetricsCall agentId,
                .generateTradesCall agentId, .savePortfolioCall agentId portfolio])

/-- The full `runAgentCycle` (lines 60-141): the `getAgentProfile` and
adapter-construction calls precede the `try` block but are non-throwing in
this model (the profile registry is total on the roster and the no-op
adapter construction cannot fail), so the `catch` converts every `try`-body
failure into a `success: false` result and the returned promise is always
fulfilled. -/
def runAgentCycle (env : AgentEnv) (agentId : String) (markets : List Market)
    (marketsMap : List (String × Market)) :
    Except String CycleResult × List Effect :=
  let body := runAgentCycleBody env agentId markets marketsMap
  match body.1 with
  | .ok r => (.ok r, body.2)
  | .error e => (.ok (failureResult agentId env.elapsedMs e), body.2)

/-- Environment of `runTradingCycle`: the per-agent collaborators plus the
fixed agent roster (`ALL_AGENT_IDS = Object.keys(AGENT_PROFILES)` from
`domain.ts`) and the settled outcomes of the two shared fetchers. News items
are opaque to the execution core. -/
structure CycleEnv extends AgentEnv where
  roster : List String
  fetchAllMarkets : Except String (List Market)
  fetchLatestNews : Except String (List String)

/-- One `Map.set` step: overwrite an existing key in place, else append
(JS `Map` insertion-order semantics). -/
def mapSet (m : List (String × Market)) (k : String) (v : Market) :
    List (String × Market) :=
  if m.any fun kv => kv.1 == k then
    m.map fun kv => if kv.1 == k then (k, v) else kv
  else
    m ++ [(k, v)]

/-- Construction of `marketsMap` in `runTradingCycle` (lines 163-166). -/
def buildMarketsMap (markets : List Market) : List (String × Market) :=
  markets.foldl (fun acc m => mapSet acc m.id m) []

/-- JS `result.reason?.message || 'Unknown error'` (line 189): an empty
message string is falsy and is replaced by the fallback. -/
def errorMessage (msg : String) : String :=
  if msg.isEmpty then "Unknown error" else msg

/-- Mapping of one `Promise.allSettled` slot to a `CycleResult`
(`runTradingCycle` lines 175-192): a fulfilled slot passes through, a
rejected slot becomes a zeroed `success: false` record for the roster agent
at the same index. -/
def settleOne (agentId : String) (outcome : Except String CycleResult) : CycleResult :=
  match outcome with
  | .ok r => r
  | .error msg =>
      { agentId := agentId
        success := false
        candidateMarkets := 0
        newTrades := 0
        closedTrades := 0
        openPositions := 0
        cycleMs := 0
        error := some (errorMessage msg) }

/-- Settle-all collection loop of `runTradingCycle`: `results[i]` is the
outcome of the agent at `ALL_AGENT_IDS[i]`, so the collection is a map over
the roster in roster order. -/
def settleAll (roster : List String) (run : String → Except String CycleResult) :
    List CycleResult :=
  roster.map fun agentId => settleOne agentId (run agentId)

/-- The full `runTradingCycle` (lines 149-195). The disabled early return
happens before any fetch. The `Promise.all` of the two fetchers is not
wrapped in a `try`, so a fetch rejection rejects the whole call; when both
fetchers reject, the model deterministically reports the markets fetcher's
error (the temporal race of `Promise.all` is abstracted away). Both fetcher
calls are logged before their outcomes are inspected, since `Promise.all`
starts both. -/
def runTradingCycle (env : CycleEnv) (config : CycleConfig) :
    Except String (List CycleResult) × List Effect :=
  if !config.enabled then
    (.ok [], [])
  else
    let fetchLog : List Effect := [.fetchAllMarketsCall, .fetchLatestNewsCall]
    match env.fetchAllMarkets with
    | .error e => (.error e, fetchLog)
    | .ok markets =>
        match env.fetchLatestNews with
        | .error e => (.error e, fetchLog)
        | .ok _news =>
            let marketsMap := buildMarketsMap markets
            let agentRuns :=
              env.roster.map fun agentId =>
                runAgentCycle env.toAgentEnv agentId markets marketsMap
            (.ok (settleAll env.roster fun agentId =>
                    (runAgentCycle env.toAgentEnv agentId markets marketsMap).1),
             fetchLog ++ (agentRuns.map Prod.snd).flatten)

/-- State of one scheduler instance (`startScheduler` lines 203-233):
`isRunning` is the re-entrancy flag; `inFlight` counts `runTradingCycle`
invocations started by this scheduler and not yet settled; `starts` counts
total invocations. -/
structure SchedulerState where
  isRunning : Bool
  inFlight : Nat
  starts : Nat
  deriving Repr, DecidableEq

/-- Events driving a scheduler: `tick` is one firing of `runCycle` (by the
interval timer), `complete` is the settling of the in-flight cycle's promise
(running the `finally` block). -/
inductive SchedulerEvent where
  | tick
  | complete
  deriving Repr, DecidableEq

/-- Synchronous prefix of `runCycle` (lines 207-214): if `isRunning` the
call returns at once (the tick is dropped, nothing is queued); otherwise the
flag is set and a `runTradingCycle` invocation starts. -/
def runCycleFire (s : SchedulerState) : SchedulerState :=
  if s.isRunning then s
  else { s with isRunning := true, inFlight := s.inFlight + 1, starts := s.starts + 1 }

/-- The `finally` block (lines 217-219): the in-flight cycle settles and
`isRunning` is cleared. -/
def cycleComplete (s : SchedulerState) : SchedulerState :=
  { s with isRunning := false, inFlight := s.inFlight - 1 }

/-- Event-step function of the scheduler state machine. -/
def schedulerStep (s : SchedulerState) (e : SchedulerEvent) : SchedulerState :=
  match e with
  | .tick => runCycleFire s
  | .complete => cycleComplete s

/-- Scheduler state before `startScheduler` has done anything. -/
def freshSchedulerState : SchedulerState :=
  { isRunning := false, inFlight := 0, starts := 0 }

/-- State right after `startScheduler` returns: line 223 calls `runCycle()`
immediately, before `setInterval` is armed, so the initial state has already
fired once. -/
def startSchedulerState : SchedulerState :=
  runCycleFire freshSchedulerState

/-- A scheduler run: the immediate invocation followed by an arbitrary
interleaving of timer ticks and cycle completions. -/
def schedulerRun (events : List SchedulerEvent) : SchedulerState :=
  events.foldl schedulerStep startSchedulerState

/-- Index record stored under `marketTrade:{marketId}` by the Firebase-backed
adapter's `saveTrade` (lines 291-292). The `status` is stored as a string. -/
structure MarketTradeIndexRecord where
  tradeId : String
  agentId : String
  status : String
  deriving Repr, DecidableEq

/-- The Firebase-backed adapter's `marketHasTrade` (lines 305-316),
parameterised by the settled behaviour of `firebaseClient.getCache`: a
missing record or a thrown lookup yields `false`; otherwise the check is
`existing.status === 'OPEN'`. -/
def marketHasTrade (getCache : String → Except String (Option MarketTradeIndexRecord))
    (marketId : String) : Bool :=
  match getCache ("marketTrade:" ++ marketId) with
  | .error _ => false
  | .ok none => false
  | .ok (some existing) => existing.status == "OPEN"

/-- The `success: true` result record assembled at the end of the `try`
body, for given post-repricing portfolio and generated trades. -/
def successResult (env : AgentEnv) (agentId : String) (markets : List Market)
    (p : AgentPortfolio) (trades : List Trade) : CycleResult :=
  { agentId := agentId
    success := true
    candidateMarkets := candidateMarketCount (env.getAgentProfile agentId) markets
    newTrades := (trades.filter fun t => decide (t.status = .OPEN)).length
    closedTrades := (trades.filter fun t => decide (t.status = .CLOSED)).length
    openPositions := p.openPositions.length
    cycleMs := env.elapsedMs
    error := none }

/-- The scheduler invariant: the in-flight count mirrors the `isRunning`
flag, because a cycle is started only when the flag is clear and the flag is
cleared exactly when the cycle settles. -/
def schedulerInv (s : SchedulerState) : Prop :=
  s.inFlight = if s.isRunning then 1 else 0

/-! ### Concrete instances used by witnesses -/

/-- A concrete agent profile (thresholds from the end-to-end scenario). -/
def profileW : AgentProfile := ⟨100, 50⟩

/-- A concrete fresh portfolio. -/
def initialPortfolioW (agentId : String) : AgentPortfolio :=
  { agentId := agentId
    startingCapitalUsd := 1000
    currentCapitalUsd := 1000
    realizedPnlUsd := 0
    unrealizedPnlUsd := 0
    maxEquityUsd := 1000
    maxDrawdownPct := 0
    openPositions := []
    lastUpdated := "t0" }

/-- A concrete collaborator environment in which every collaborator
succeeds. -/
def agentEnvW : AgentEnv :=
  { getAgentProfile := fun _ => profileW
    createInitialPortfolio := initialPortfolioW
    updatePortfolioMetrics := fun p _ => .ok p
    generateAgentTrades := fun _ => .ok []
    elapsedMs := 5
    nowIso := "t1" }

/-- The market list of the end-to-end scenario. -/
def marketsW : List Market := [⟨"m1", 1000, 500⟩]

/-- A concrete orchestrator environment with a two-agent roster and
succeeding fetchers. -/
def cycleEnvW : CycleEnv :=
  { agentEnvW with
    roster := ["alpha", "beta"]
    fetchAllMarkets := .ok marketsW
    fetchLatestNews := .ok [] }

/-- A concrete environment whose markets fetcher rejects. -/
def cycleEnvMarketsFailW : CycleEnv :=
  { agentEnvW with
    roster := ["alpha", "beta"]
    fetchAllMarkets := .error "net down"
    fetchLatestNews := .ok [] }

/-- A concrete environment whose news fetcher rejects. -/
def cycleEnvNewsFailW : CycleEnv :=
  { agentEnvW with
    roster := ["alpha", "beta"]
    fetchAllMarkets := .ok marketsW
    fetchLatestNews := .error "news down" }

/-- A concrete environment whose trade generator rejects, driving
`runAgentCycle` into its `catch` branch. -/
def agentEnvFailW : AgentEnv :=
  { agentEnvW with generateAgentTrades := fun _ => .error "gen down" }

/-- A concrete orchestrator environment over `agentEnvFailW`, whose trade
generator rejects while both fetchers succeed. -/
def cycleEnvFailW : CycleEnv :=
  { agentEnvFailW with
    roster := ["alpha"]
    fetchAllMarkets := .ok marketsW
    fetchLatestNews := .ok [] }

/-- A `getCache` whose lookup throws. -/
def failingGetCacheW : String → Except String (Option MarketTradeIndexRecord) :=
  fun _ => .error "storage down"

/-- A `getCache` holding an `OPEN` index record for every key. -/
def openGetCacheW : String → Except String (Option MarketTradeIndexRecord) :=
  fun _ => .ok (some ⟨"t1", "alpha", "OPEN"⟩)

/-! ### Helper lemmas shared by several theorems -/

/-- The portfolio-loading step always yields the fresh initial portfolio,
because the no-op adapter's `getPortfolio` resolves to `null`. -/
lemma loadPortfolioStep_eq_initial (env : AgentEnv) (agentId : String) :
    loadPortfolioStep env agentId = env.createInitialPortfolio agentId :=
  rfl

/-- A fulfilled `try`-body result has the input agent id and `success: true`. -/
lemma runAgentCycleBody_ok (env : AgentEnv) (agentId : String) (markets : List Market)
    (marketsMap : List (String × Market)) (r : CycleResult)
    (h : (runAgentCycleBody env agentId markets marketsMap).1 = .ok r) :
    r.agentId = agentId ∧ r.success = true := by
  rcases hu : env.updatePortfolioMetrics (loadPortfolioStep env agentId) marketsMap with e | p
  · simp [runAgentCycleBody, hu] at h
  · rcases hg : env.generateAgentTrades agentId with e | trades
    · simp [runAgentCycleBody, hu, hg] at h
    · simp [runAgentCycleBody, hu, hg, noopSavePortfolio] at h
      simp [← h]

/-- `runAgentCycle` always fulfills, with the input agent id, and a result
that is either the `try`-body's result or the `catch` branch's record. -/
lemma runAgentCycle_fulfills (env : AgentEnv) (agentId : String) (markets : List Market)
    (marketsMap : List (String × Market)) :
    ∃ r : CycleResult,
      (runAgentCycle env agentId markets marketsMap).1 = .ok r ∧ r.agentId = agentId := by
  rcases hb : (runAgentCycleBody env agentId markets marketsMap).1 with e | r
  · exact ⟨failureResult agentId env.elapsedMs e, by simp [runAgentCycle, hb], rfl⟩
  · exact ⟨r, by simp [runAgentCycle, hb],
      (runAgentCycleBody_ok env agentId markets marketsMap r hb).1⟩

/-- Case analysis on the outcome of `runAgentCycle`. -/
lemma runAgentCycle_ok_cases (env : AgentEnv) (agentId : String) (markets : List Market)
    (marketsMap : List (String × Market)) (r : CycleResult)
    (h : (runAgentCycle env agentId markets marketsMap).1 = .ok r) :
    (runAgentCycleBody env agentId markets marketsMap).1 = .ok r ∨
      ∃ e, (runAgentCycleBody env agentId markets marketsMap).1 = .error e ∧
        r = failureResult agentId env.elapsedMs e := by
  rcases hb : (runAgentCycleBody env agentId markets marketsMap).1 with e | r'
  · right
    refine ⟨e, rfl, ?_⟩
    simp [runAgentCycle, hb] at h
    exact h.symm
  · left
    simp [runAgentCycle, hb] at h
    rw [← h]

lemma schedulerStep_inv (s : SchedulerState) (e : SchedulerEvent)
    (h : schedulerInv s) : schedulerInv (schedulerStep s e) := by
  cases e <;> rcases hr : s.isRunning <;>
    simp [schedulerInv, schedulerStep, runCycleFire, cycleComplete, hr] at h ⊢ <;>
    omega

lemma schedulerFold_inv (events : List SchedulerEvent) (s : SchedulerState)
    (h : schedulerInv s) : schedulerInv (events.foldl schedulerStep s) := by
  induction events generalizing s with
  | nil => exact h
  | cons e es ih => exact ih (schedulerStep s e) (schedulerStep_inv s e h)

/-- The candidate-market count is the count of markets satisfying the
conjunction of the two threshold conditions. -/
lemma candidateMarketCount_eq_countP (agent : AgentProfile) (markets : List Market) :
    candidateMarketCount agent markets =
      markets.countP fun m =>
        decide (m.volumeUsd ≥ agent.minVolume ∧ m.liquidityUsd ≥ agent.minLiquidity) := by
  unfold candidateMarketCount
  rw [List.countP_eq_length_filter]
  have hpred : (fun (m : Market) =>
      let volume := decide (m.volumeUsd ≥ agent.minVolume)
      let liquidity := decide (m.liquidityUsd ≥ agent.minLiquidity)
      volume && liquidity) =
      fun m => decide (m.volumeUsd ≥ agent.minVolume ∧ m.liquidityUsd ≥ agent.minLiquidity) := by
    funext m
    by_cases h1 : m.volumeUsd ≥ agent.minVolume <;>
      by_cases h2 : m.liquidityUsd ≥ agent.minLiquidity <;>
      simp [h1, h2]
  rw [hpred]

/-- When repricing and generation both succeed, `runAgentCycle` fulfills
with the assembled success record and its effect log ends with the
`savePortfolio` of the repriced portfolio. -/
lemma runAgentCycle_success (env : AgentEnv) (agentId : String) (markets : List Market)
    (marketsMap : List (String × Market)) (p : AgentPortfolio) (trades : List Trade)
    (hu : env.updatePortfolioMetrics (env.createInitialPortfolio agentId) marketsMap = .ok p)
    (hg : env.generateAgentTrades agentId = .ok trades) :
    (runAgentCycle env agentId markets marketsMap).1 =
      .ok (successResult env agentId markets p trades) ∧
    (runAgentCycle env agentId markets marketsMap).2 =
      [.getPortfolioCall agentId, .updateMetricsCall agentId,
       .generateTradesCall agentId, .savePortfolioCall agentId p] := by
  have hload : env.updatePortfolioMetrics (loadPortfolioStep env agentId) marketsMap = .ok p := by
    rw [loadPortfolioStep_eq_initial]
    exact hu
  constructor <;>
    simp [runAgentCycle, runAgentCycleBody, successResult, hload, hg, noopSavePortfolio]

/-! ### Claim theorems -/

/-- C1: for every agent id in the fixed roster and all markets/marketsMap
inputs, `runAgentCycle` never rejects: its outcome is always fulfilled with
a `CycleResult` whose `agentId` equals the input, and every internal failure
of the `try` body — whichever collaborator threw it — is caught and
converted into exactly the `catch` branch's `CycleResult`, which has
`success: false` and carries the failure's message as its error string. -/
theorem runAgentCycle_never_throws (env : CycleEnv) (agentId : String)
    (markets : List Market) (marketsMap : List (String × Market))
    (_hroster : agentId ∈ env.roster) :
    (∃ r : CycleResult,
      (runAgentCycle env.toAgentEnv agentId markets marketsMap).1 = .ok r ∧
      r.agentId = agentId) ∧
    (∀ e : String,
      (runAgentCycleBody env.toAgentEnv agentId markets marketsMap).1 = .error e →
      (runAgentCycle env.toAgentEnv agentId markets marketsMap).1 =
        .ok (failureResult agentId env.elapsedMs e) ∧
      (failureResult agentId env.elapsedMs e).agentId = agentId ∧
      (failureResult agentId env.elapsedMs e).success = false ∧
      (failureResult agentId env.elapsedMs e).error = some e) := by
  refine ⟨runAgentCycle_fulfills env.toAgentEnv agentId markets marketsMap, ?_⟩
  intro e he
  refine ⟨?_, rfl, rfl, rfl⟩
  simp [runAgentCycle, he]

theorem runAgentCycle_never_throws_witness :
    ((∃ r : CycleResult,
      (runAgentCycle cycleEnvFailW.toAgentEnv "alpha" marketsW []).1 = .ok r ∧
      r.agentId = "alpha") ∧
    (∀ e : String,
      (runAgentCycleBody cycleEnvFailW.toAgentEnv "alpha" marketsW []).1 = .error e →
      (runAgentCycle cycleEnvFailW.toAgentEnv "alpha" marketsW []).1 =
        .ok (failureResult "alpha" cycleEnvFailW.elapsedMs e) ∧
      (failureResult "alpha" cycleEnvFailW.elapsedMs e).agentId = "alpha" ∧
      (failureResult "alpha" cycleEnvFailW.elapsedMs e).success = false ∧
      (failureResult "alpha" cycleEnvFailW.elapsedMs e).error = some e)) ∧
    (runAgentCycleBody cycleEnvFailW.toAgentEnv "alpha" marketsW []).1 =
      .error "gen down" ∧
    (runAgentCycle cycleEnvFailW.toAgentEnv "alpha" marketsW []).1 =
      .ok (failureResult "alpha" 5 "gen down") :=
  ⟨runAgentCycle_never_throws cycleEnvFailW "alpha" marketsW [] (by decide), rfl, rfl⟩

/-- C2: while a cycle started by the scheduler is in flight, a later timer
tick does not start an overlapping cycle — at most one `runTradingCycle`
invocation of this scheduler is active at any time, and a tick that fires
while `isRunning` is set leaves the state unchanged (the tick is dropped,
not queued). -/
theorem scheduler_no_overlap :
    (∀ events : List SchedulerEvent, (schedulerRun events).inFlight ≤ 1) ∧
    (∀ s : SchedulerState, s.isRunning = true → schedulerStep s .tick = s) := by
  constructor
  · intro events
    have hinv : schedulerInv (schedulerRun events) := by
      apply schedulerFold_inv
      simp [schedulerInv, startSchedulerState, freshSchedulerState, runCycleFire]
    rcases hr : (schedulerRun events).isRunning <;> simp [schedulerInv, hr] at hinv <;>
      omega
  · intro s hs
    simp [schedulerStep, runCycleFire, hs]

theorem scheduler_no_overlap_witness :
    (schedulerRun [.tick, .tick, .complete, .tick]).inFlight ≤ 1 ∧
    schedulerStep ⟨true, 1, 1⟩ .tick = ⟨true, 1, 1⟩ :=
  ⟨scheduler_no_overlap.1 [.tick, .tick, .complete, .tick],
   scheduler_no_overlap.2 ⟨true, 1, 1⟩ rfl⟩

/-- C4: with `enabled: false`, `runTradingCycle` returns `[]` immediately
and its effect log is empty — in particular zero calls to `fetchAllMarkets`
and `fetchLatestNews`, and no persistence effects of any kind. -/
theorem runTradingCycle_disabled_no_effects (env : CycleEnv) (config : CycleConfig)
    (h : config.enabled = false) :
    runTradingCycle env config = (.ok [], []) := by
  simp [runTradingCycle, h]

theorem runTradingCycle_disabled_no_effects_witness :
    runTradingCycle cycleEnvW ⟨false, 60000, none⟩ = (.ok [], []) :=
  runTradingCycle_disabled_no_effects cycleEnvW ⟨false, 60000, none⟩ rfl

/-- C6: `marketHasTrade` returns `false` rather than throwing when the index
lookup itself throws (fail-open), and otherwise returns `true` exactly when
a `marketTrade:{marketId}` index record exists whose status is `'OPEN'`. -/
theorem marketHasTrade_fail_open
    (getCache : String → Except String (Option MarketTradeIndexRecord))
    (marketId : String) :
    (∀ e, getCache ("marketTrade:" ++ marketId) = .error e →
        marketHasTrade getCache marketId = false) ∧
    (marketHasTrade getCache marketId = true ↔
      ∃ record : MarketTradeIndexRecord,
        getCache ("marketTrade:" ++ marketId) = .ok (some record) ∧
        record.status = "OPEN") := by
  rcases hc : getCache ("marketTrade:" ++ marketId) with e | opt
  · refine ⟨fun _ _ => by simp [marketHasTrade, hc], ?_⟩
    simp [marketHasTrade, hc]
  · rcases opt with _ | record
    · refine ⟨fun e he => by simp [hc] at he, ?_⟩
      simp [marketHasTrade, hc]
    · refine ⟨fun e he => by simp [hc] at he, ?_⟩
      simp [marketHasTrade, hc]

theorem marketHasTrade_fail_open_witness :
    marketHasTrade failingGetCacheW "m1" = false ∧
    marketHasTrade openGetCacheW "m1" = true :=
  ⟨(marketHasTrade_fail_open failingGetCacheW "m1").1 "storage down" rfl,
   (marketHasTrade_fail_open openGetCacheW "m1").2.mpr ⟨⟨"t1", "alpha", "OPEN"⟩, rfl, rfl⟩⟩

/-- C8: `startScheduler` invokes the cycle function once immediately at
start, before the first interval tick fires — the start state already counts
one invocation, obtained by firing `runCycle` on the fresh state — and
thereafter every tick that finds the guard clear starts exactly one more
invocation. -/
theorem startScheduler_runs_immediately :
    startSchedulerState.starts = 1 ∧
    freshSchedulerState.starts = 0 ∧
    startSchedulerState = runCycleFire freshSchedulerState ∧
    (∀ s : SchedulerState, s.isRunning = false →
        (schedulerStep s .tick).starts = s.starts + 1) := by
  refine ⟨rfl, rfl, rfl, fun s hs => ?_⟩
  simp [schedulerStep, runCycleFire, hs]

theorem startScheduler_runs_immediately_witness :
    startSchedulerState.starts = 1 ∧
    (schedulerStep ⟨false, 0, 5⟩ .tick).starts = 5 + 1 :=
  ⟨startScheduler_runs_immediately.1,
   startScheduler_runs_immediately.2.2.2 ⟨false, 0, 5⟩ rfl⟩

/-- C10: every `CycleResult` with `success: false` — from `runAgentCycle`'s
`catch` branch or from `runTradingCycle`'s mapping of a rejected agent
promise — has `candidateMarkets`, `newTrades`, `closedTrades`, and
`openPositions` all equal to `0` and carries an error string. -/
theorem failed_result_fields_zeroed :
    (∀ (env : AgentEnv) (agentId : String) (markets : List Market)
        (marketsMap : List (String × Market)) (r : CycleResult),
        (runAgentCycle env agentId markets marketsMap).1 = .ok r →
        r.success = false →
        r.candidateMarkets = 0 ∧ r.newTrades = 0 ∧ r.closedTrades = 0 ∧
          r.openPositions = 0 ∧ r.error.isSome = true) ∧
    (∀ agentId msg : String,
        (settleOne agentId (.error msg)).success = false ∧
        (settleOne agentId (.error msg)).candidateMarkets = 0 ∧
        (settleOne agentId (.error msg)).newTrades = 0 ∧
        (settleOne agentId (.error msg)).closedTrades = 0 ∧
        (settleOne agentId (.error msg)).openPositions = 0 ∧
        (settleOne agentId (.error msg)).error = some (errorMessage msg)) := by
  constructor
  · intro env agentId markets marketsMap r h hs
    rcases runAgentCycle_ok_cases env agentId markets marketsMap r h with hb | ⟨e, _, hr⟩
    · have := (runAgentCycleBody_ok env agentId markets marketsMap r hb).2
      rw [hs] at this
      exact absurd this (by simp)
    · subst hr
      simp [failureResult]
  · intro agentId msg
    simp [settleOne]

theorem failed_result_fields_zeroed_witness :
    ((failureResult "alpha" 5 "gen down").candidateMarkets = 0 ∧
      (failureResult "alpha" 5 "gen down").newTrades = 0 ∧
      (failureResult "alpha" 5 "gen down").closedTrades = 0 ∧
      (failureResult "alpha" 5 "gen down").openPositions = 0 ∧
      (failureResult "alpha" 5 "gen down").error.isSome = true) ∧
    (settleOne "alpha" (.error "boom")).success = false :=
  ⟨failed_result_fields_zeroed.1 agentEnvFailW "alpha" [] []
     (failureResult "alpha" 5 "gen down") rfl rfl,
   (failed_result_fields_zeroed.2 "alpha" "boom").1⟩

/-- C3: an enabled `runTradingCycle` whose fetches succeed produces exactly
one `CycleResult` per roster agent, in roster order; the settle-all mapping
sends a rejected slot to a `success: false` record carrying the rejection
message and determines each slot from that agent's outcome alone; and each
agent's own `runAgentCycle` outcome is fulfilled with a matching agent id. -/
theorem runTradingCycle_one_result_per_agent (env : CycleEnv) (config : CycleConfig)
    (hen : config.enabled = true) (markets : List Market) (news : List String)
    (hm : env.fetchAllMarkets = .ok markets) (hn : env.fetchLatestNews = .ok news)
    (run : String → Except String CycleResult) :
    (runTradingCycle env config).1 =
      .ok (settleAll env.roster fun agentId =>
            (runAgentCycle env.toAgentEnv agentId markets (buildMarketsMap markets)).1) ∧
    (settleAll env.roster run).length = env.roster.length ∧
    (∀ (i : Nat) (a : String), env.roster[i]? = some a →
        (settleAll env.roster run)[i]? = some (settleOne a (run a))) ∧
    (∀ a msg, (settleOne a (.error msg)).agentId = a ∧
        (settleOne a (.error msg)).success = false ∧
        (settleOne a (.error msg)).error = some (errorMessage msg)) ∧
    (∀ a, ∃ r : CycleResult,
        (runAgentCycle env.toAgentEnv a markets (buildMarketsMap markets)).1 = .ok r ∧
        r.agentId = a) := by
  refine ⟨?_, ?_, ?_, ?_, ?_⟩
  · simp [runTradingCycle, hen, hm, hn]
  · simp [settleAll]
  · intro i a ha
    simp [settleAll, List.getElem?_map, ha]
  · intro a msg
    simp [settleOne]
  · intro a
    exact runAgentCycle_fulfills env.toAgentEnv a markets (buildMarketsMap markets)

theorem runTradingCycle_one_result_per_agent_witness :
    (runTradingCycle cycleEnvW ⟨true, 60000, none⟩).1 =
      .ok (settleAll cycleEnvW.roster fun agentId =>
            (runAgentCycle cycleEnvW.toAgentEnv agentId marketsW
              (buildMarketsMap marketsW)).1) ∧
    (settleAll cycleEnvW.roster fun _ => Except.error "boom").length =
      cycleEnvW.roster.length ∧
    (∀ (i : Nat) (a : String), cycleEnvW.roster[i]? = some a →
        (settleAll cycleEnvW.roster fun _ => Except.error "boom")[i]? =
          some (settleOne a (Except.error "boom"))) ∧
    (∀ a msg, (settleOne a (.error msg)).agentId = a ∧
        (settleOne a (.error msg)).success = false ∧
        (settleOne a (.error msg)).error = some (errorMessage msg)) ∧
    (∀ a, ∃ r : CycleResult,
        (runAgentCycle cycleEnvW.toAgentEnv a marketsW (buildMarketsMap marketsW)).1 =
          .ok r ∧ r.agentId = a) :=
  runTradingCycle_one_result_per_agent cycleEnvW ⟨true, 60000, none⟩ rfl marketsW []
    rfl rfl (fun _ => Except.error "boom")

/-- C5: a successful `runAgentCycle` reports `candidateMarkets` equal to the
number of markets meeting both the agent's `minVolume` and `minLiquidity`
thresholds — a conjunctive filter. The witness instantiates the end-to-end
scenario: one market with `volumeUsd: 1000, liquidityUsd: 500` against a
profile with `minVolume: 100, minLiquidity: 50` gives `candidateMarkets: 1`. -/
theorem runAgentCycle_candidate_count (env : AgentEnv) (agentId : String)
    (markets : List Market) (marketsMap : List (String × Market))
    (p : AgentPortfolio) (trades : List Trade)
    (hu : env.updatePortfolioMetrics (env.createInitialPortfolio agentId) marketsMap = .ok p)
    (hg : env.generateAgentTrades agentId = .ok trades) :
    ∃ r : CycleResult,
      (runAgentCycle env agentId markets marketsMap).1 = .ok r ∧
      r.success = true ∧
      r.candidateMarkets =
        markets.countP fun m =>
          decide (m.volumeUsd ≥ (env.getAgentProfile agentId).minVolume ∧
                  m.liquidityUsd ≥ (env.getAgentProfile agentId).minLiquidity) := by
  refine ⟨successResult env agentId markets p trades,
    (runAgentCycle_success env agentId markets marketsMap p trades hu hg).1, rfl, ?_⟩
  exact candidateMarketCount_eq_countP (env.getAgentProfile agentId) markets

theorem runAgentCycle_candidate_count_witness :
    (∃ r : CycleResult,
      (runAgentCycle agentEnvW "alpha" marketsW []).1 = .ok r ∧
      r.success = true ∧
      r.candidateMarkets =
        marketsW.countP fun m =>
          decide (m.volumeUsd ≥ (agentEnvW.getAgentProfile "alpha").minVolume ∧
                  m.liquidityUsd ≥ (agentEnvW.getAgentProfile "alpha").minLiquidity)) ∧
    (marketsW.countP fun m =>
        decide (m.volumeUsd ≥ (agentEnvW.getAgentProfile "alpha").minVolume ∧
                m.liquidityUsd ≥ (agentEnvW.getAgentProfile "alpha").minLiquidity)) = 1 :=
  ⟨runAgentCycle_candidate_count agentEnvW "alpha" marketsW []
     (initialPortfolioW "alpha") [] rfl rfl,
   by decide⟩

/-- C7: if `fetchAllMarkets` or `fetchLatestNews` rejects during an enabled
invocation, `runTradingCycle` itself rejects with the fetch error and its
effect log stops at the two fetch calls — no per-agent cycle runs, so the
entire cycle for all agents is aborted. -/
theorem runTradingCycle_fetch_failure_propagates (env : CycleEnv) (config : CycleConfig)
    (hen : config.enabled = true) :
    (∀ e, env.fetchAllMarkets = .error e →
        runTradingCycle env config =
          (.error e, [.fetchAllMarketsCall, .fetchLatestNewsCall])) ∧
    (∀ (markets : List Market) (e : String),
        env.fetchAllMarkets = .ok markets → env.fetchLatestNews = .error e →
        runTradingCycle env config =
          (.error e, [.fetchAllMarketsCall, .fetchLatestNewsCall])) := by
  constructor
  · intro e he
    simp [runTradingCycle, hen, he]
  · intro markets e hm hn
    simp [runTradingCycle, hen, hm, hn]

theorem runTradingCycle_fetch_failure_propagates_witness :
    runTradingCycle cycleEnvMarketsFailW ⟨true, 60000, none⟩ =
      (.error "net down", [.fetchAllMarketsCall, .fetchLatestNewsCall]) ∧
    runTradingCycle cycleEnvNewsFailW ⟨true, 60000, none⟩ =
      (.error "news down", [.fetchAllMarketsCall, .fetchLatestNewsCall]) :=
  ⟨(runTradingCycle_fetch_failure_propagates cycleEnvMarketsFailW ⟨true, 60000, none⟩
      rfl).1 "net down" rfl,
   (runTradingCycle_fetch_failure_propagates cycleEnvNewsFailW ⟨true, 60000, none⟩
      rfl).2 marketsW "news down" rfl rfl⟩

/-- C9: the no-op adapter's `getPortfolio` always resolves to `null`, so the
portfolio `runAgentCycle` reprices is always the freshly created
`createInitialPortfolio(agentId)`; when repricing and generation succeed,
the portfolio handed to `savePortfolio` is exactly the repriced fresh
portfolio and the reported `openPositions` count is taken from it — no
durable portfolio state is ever read or carried across cycles. -/
theorem runAgentCycle_fresh_portfolio (env : AgentEnv) (agentId : String)
    (markets : List Market) (marketsMap : List (String × Market)) :
    noopGetPortfolio agentId = .ok none ∧
    loadPortfolioStep env agentId = env.createInitialPortfolio agentId ∧
    (∀ (p : AgentPortfolio) (trades : List Trade),
      env.updatePortfolioMetrics (env.createInitialPortfolio agentId) marketsMap = .ok p →
      env.generateAgentTrades agentId = .ok trades →
      Effect.savePortfolioCall agentId p ∈ (runAgentCycle env agentId markets marketsMap).2 ∧
      ∃ r : CycleResult,
        (runAgentCycle env agentId markets marketsMap).1 = .ok r ∧
        r.openPositions = p.openPositions.length) := by
  refine ⟨rfl, loadPortfolioStep_eq_initial env agentId, ?_⟩
  intro p trades hu hg
  have hrun := runAgentCycle_success env agentId markets marketsMap p trades hu hg
  constructor
  · rw [hrun.2]
    simp
  · exact ⟨successResult env agentId markets p trades, hrun.1, rfl⟩

theorem runAgentCycle_fresh_portfolio_witness :
    noopGetPortfolio "alpha" = .ok none ∧
    loadPortfolioStep agentEnvW "alpha" = agentEnvW.createInitialPortfolio "alpha" ∧
    (Effect.savePortfolioCall "alpha" (initialPortfolioW "alpha") ∈
        (runAgentCycle agentEnvW "alpha" marketsW []).2 ∧
      ∃ r : CycleResult,
        (runAgentCycle agentEnvW "alpha" marketsW []).1 = .ok r ∧
        r.openPositions = (initialPortfolioW "alpha").openPositions.length) :=
  ⟨(runAgentCycle_fresh_portfolio agentEnvW "alpha" marketsW []).1,
   (runAgentCycle_fresh_portfolio agentEnvW "alpha" marketsW []).2.1,
   (runAgentCycle_fresh_portfolio agentEnvW "alpha" marketsW []).2.2
     (initialPortfolioW "alpha") [] rfl rfl⟩

end Mira
